import Mathlib

/-!
Verification of the efiche performance dashboard's frontend client and
metric pipeline, shallowly embedded from the TypeScript sources (the
backend API client `fetchApi` and the per-endpoint parameter assembly,
the filter contexts' `getFilterParams`, the dashboard data hooks, the
task-load chart sorting and the CSV export), together with models of
the backend metric formulas taken from the specification where the
backend implementation itself is not part of the repository snapshot.
-/

set_option autoImplicit false

namespace EficheDash

/-! ### API client (`fetchApi` and the response envelope) -/

/-- The response envelope `ApiResponse<T>` of the backend API client:
`{success, data, metadata?, error?}`. -/
structure ApiResponse (T : Type) where
  success : Bool
  data : T
  metadata : Option (List (String × String)) := none
  error : Option String := none
  deriving Repr, DecidableEq

/-- Outcome of the underlying HTTP `fetch` as observed by `fetchApi`:
the fetch itself may throw (network error, message absent when a
non-`Error` value was thrown), the server may answer with a non-OK
status (carrying the raw error text and, when that text parses as
JSON, its optional truthy `error` field), or the parsed JSON body is
returned. -/
inductive FetchResult (T : Type) where
  | netError (msg : Option String)
  | httpError (status : Nat) (errorText : String) (parsedError : Option (Option String))
  | ok (body : ApiResponse T)
  deriving Repr, DecidableEq

/-- The error message `fetchApi` builds for a non-OK response: starts
from `HTTP error! status: N`, replaced by the parsed body's `error`
field when the body parses as JSON and that field is truthy, otherwise
by the raw body text when it is nonempty. -/
def httpErrorMessage (status : Nat) (errorText : String)
    (parsedError : Option (Option String)) : String :=
  let dflt := "HTTP error! status: " ++ toString status
  match parsedError with
  | some (some e) => if e = "" then dflt else e
  | some none => dflt
  | none => if errorText = "" then dflt else errorText

/-- Message extraction in the catch clause: `error instanceof Error ?
error.message : 'Unknown error'`. -/
def caughtMessage : Option String → String
  | some m => m
  | none => "Unknown error"

/-- The fetch wrapper `fetchApi` for the list-valued chart endpoints:
on success the parsed body is returned unchanged; any failure is
caught and turned into `{success: false, data: [], error: message}`. -/
def fetchApi {α : Type} (r : FetchResult (List α)) : ApiResponse (List α) :=
  match r with
  | .ok body => body
  | .netError m => { success := false, data := [], error := some (caughtMessage m) }
  | .httpError st txt pe =>
      { success := false, data := [], error := some (httpErrorMessage st txt pe) }

/-! ### Query-parameter encoding -/

/-- A query-parameter value as accepted by `fetchApi`:
`string | number | string[]`. -/
inductive ParamValue where
  | str (s : String)
  | num (n : Int)
  | arr (vs : List String)
  deriving Repr, DecidableEq

/-- `fetchApi`'s parameter-encoding loop over `Object.entries(params)`:
an array value appends one `(key, element)` pair per element in order,
any other value is appended once as its string form. -/
def appendParams (ps : List (String × ParamValue)) : List (String × String) :=
  ps.flatMap (fun p =>
    match p.2 with
    | .str s => [(p.1, s)]
    | .num n => [(p.1, toString n)]
    | .arr vs => vs.map (fun v => (p.1, v)))

/-- The `assignees?: string | string[]` argument of the chart endpoint
functions. -/
inductive AssigneeArg where
  | single (a : String)
  | multi (as : List String)
  deriving Repr, DecidableEq

/-- `if (assignees) params.assignee = Array.isArray(assignees) ?
assignees : [assignees]`: a single assignee string is wrapped into a
one-element array. -/
def assigneeParam : Option AssigneeArg → List (String × ParamValue)
  | none => []
  | some (.single a) => [("assignee", .arr [a])]
  | some (.multi as) => [("assignee", .arr as)]

/-- `if (x) params.key = x` for an optional string argument. -/
def optStrParam (key : String) : Option String → List (String × ParamValue)
  | none => []
  | some s => [(key, .str s)]

/-- Parameter assembly of `getWeeklyFlow`: `num_weeks` always, then the
optional `start_date`, `end_date`, repeatable `assignee` and
`issueType` in object-insertion order. -/
def getWeeklyFlowParams (numWeeks : Int) (startDate endDate : Option String)
    (assignees : Option AssigneeArg) (issueType : Option String) :
    List (String × ParamValue) :=
  [("num_weeks", .num numWeeks)]
    ++ optStrParam "start_date" startDate
    ++ optStrParam "end_date" endDate
    ++ assigneeParam assignees
    ++ optStrParam "issueType" issueType

/-! ### Filter contexts (`getFilterParams`) -/

/-- The assignee loop of the multi-assignee `getFilterParams`: skipped
when the list is empty, and each falsy entry or sentinel
`All Assignees` entry appends nothing. -/
def assigneeSegMulti (assignees : List String) : List (String × String) :=
  if assignees.length > 0 then
    assignees.flatMap (fun a =>
      if a ≠ "" ∧ a ≠ "All Assignees" then [("assignee", a)] else [])
  else []

/-- The single optional assignee of `FilterContext.tsx`: appended only
when truthy and not the sentinel `All Assignees`. -/
def assigneeSegSingle (assignee : Option String) : List (String × String) :=
  match assignee with
  | some a => if a ≠ "" ∧ a ≠ "All Assignees" then [("assignee", a)] else []
  | none => []

/-- The `issueType` parameter: appended only when truthy and not the
sentinel `All Types`. -/
def issueTypeSeg (issueType : Option String) : List (String × String) :=
  match issueType with
  | some t => if t ≠ "" ∧ t ≠ "All Types" then [("issueType", t)] else []
  | none => []

/-- A date-bound parameter: appended only when truthy. -/
def dateSeg (key : String) (d : Option String) : List (String × String) :=
  match d with
  | some s => if s ≠ "" then [(key, s)] else []
  | none => []

/-- `getFilterParams` of the multi-assignee filter context, in
append order: assignees, issue type, start date, end date. -/
def getFilterParamsMulti (assignees : List String) (issueType : Option String)
    (dateStart dateEnd : Option String) : List (String × String) :=
  assigneeSegMulti assignees ++ issueTypeSeg issueType
    ++ dateSeg "startDate" dateStart ++ dateSeg "endDate" dateEnd

/-- `getFilterParams` of the single-assignee filter context
(`FilterContext.tsx`). -/
def getFilterParamsSingle (assignee issueType : Option String)
    (dateStart dateEnd : Option String) : List (String × String) :=
  assigneeSegSingle assignee ++ issueTypeSeg issueType
    ++ dateSeg "startDate" dateStart ++ dateSeg "endDate" dateEnd

/-! ### Frontend chart-row transformation (dashboard hooks) -/

/-- JS `a || b` on a possibly-absent string: the default wins when the
value is absent or empty (falsy). -/
def jsOrString : Option String → String → String
  | some s, dflt => if s = "" then dflt else s
  | none, dflt => dflt

/-- A planned-vs-done / weekly-flow JSON row as the hooks read it: the
two week-label key variants and the numeric fields (an absent numeric
key is read as 0 through `Number(x ?? 0) || 0`). -/
structure ChartItem where
  weekLabel : Option String
  week : Option String
  planned : Nat
  done : Nat
  inProgress : Nat
  carryOver : Nat
  deriving Repr, DecidableEq

/-- `item['Week Label'] || item['Week'] || ''`. -/
def rawWeekLabel (it : ChartItem) : String :=
  jsOrString it.weekLabel (jsOrString it.week "")

/-- Scan for the first `W` followed by at least one digit and return
the maximal digit run after it (the regex `/W(\d+)/`). -/
def wDigits : List Char → Option (List Char)
  | [] => none
  | c :: rest =>
    if c = 'W' then
      let ds := rest.takeWhile Char.isDigit
      if ds.isEmpty then wDigits rest else some ds
    else wDigits rest

/-- The hooks' `formatWeekLabel`: empty stays empty, a `/W(\d+)/`
match is rewritten to `W` plus the captured digits, anything else is
returned unchanged. -/
def formatWeekLabel (label : String) : String :=
  if label = "" then ""
  else
    match wDigits label.toList with
    | some ds => "W" ++ String.mk ds
    | none => label

/-- A transformed planned-vs-done row. -/
structure PlannedRow where
  week : String
  planned : Nat
  done : Nat
  deriving Repr, DecidableEq

/-- A transformed weekly-flow row. -/
structure FlowRow where
  week : String
  done : Nat
  inProgress : Nat
  carryOver : Nat
  deriving Repr, DecidableEq

/-- The `plannedVsDone` transformation in `useThroughputData`: format
each row's week label, then drop rows whose formatted label is empty
(the filter on `item.week` truthiness). -/
def transformPlannedVsDone (items : List ChartItem) : List PlannedRow :=
  (items.map (fun it =>
    { week := formatWeekLabel (rawWeekLabel it), planned := it.planned, done := it.done })).filter
    (fun r => r.week ≠ "")

/-- The `weeklyFlow` transformation in `useThroughputData`. -/
def transformWeeklyFlow (items : List ChartItem) : List FlowRow :=
  (items.map (fun it =>
    { week := formatWeekLabel (rawWeekLabel it), done := it.done,
      inProgress := it.inProgress, carryOver := it.carryOver })).filter
    (fun r => r.week ≠ "")

/-- The data the throughput section renders. -/
structure ThroughputData where
  plannedVsDone : List PlannedRow
  weeklyFlow : List FlowRow
  deriving Repr, DecidableEq

/-- The decision logic of `useThroughputData`: both responses come back
from `Promise.all`; if either envelope has `success: false` the hook
throws (the catch stores the message and leaves `data` null), so no
chart data at all is delivered; only when both succeed are both series
transformed and delivered. -/
def throughputResult (p w : ApiResponse (List ChartItem)) :
    Except String ThroughputData :=
  if !p.success then .error (jsOrString p.error "Failed to fetch planned vs done data")
  else if !w.success then .error (jsOrString w.error "Failed to fetch weekly flow data")
  else .ok { plannedVsDone := transformPlannedVsDone p.data,
             weeklyFlow := transformWeeklyFlow w.data }

/-- A settled promise outcome as delivered by `Promise.allSettled`. -/
inductive Settled (α : Type) where
  | fulfilled (v : α)
  | rejected (reason : String)
  deriving Repr, DecidableEq

/-- A QA-vs-failed JSON row as `useQualityReworkData` reads it. -/
structure QAItem where
  sprint : Option String
  sprintName : Option String
  week : Option String
  weekLabel : Option String
  qaExecuted : Nat
  failedQA : Nat
  deriving Repr, DecidableEq

/-- A transformed QA-vs-failed row. -/
structure QARow where
  sprint : String
  qaExecuted : Nat
  failedQA : Nat
  deriving Repr, DecidableEq

/-- A rework-ratio JSON row as `useQualityReworkData` reads it. -/
structure ReworkItem where
  weekLabelField : Option String
  weekLower : Option String
  weekCap : Option String
  cleanDelivery : Nat
  rework : Nat
  deriving Repr, DecidableEq

/-- A transformed rework-ratio row. -/
structure ReworkRow where
  week : String
  cleanDelivery : Nat
  rework : Nat
  deriving Repr, DecidableEq

/-- A weekly lead-time JSON row as `useQualityReworkData` reads it
(`avgLeadTime` is `none` for a null or non-numeric value, read as 0). -/
structure LeadTimeItem where
  weekLabel : Option String
  week : Option String
  avgLeadTime : Option ℚ
  deriving Repr, DecidableEq

/-- A transformed lead-time trend row. -/
structure LeadTimeRow where
  week : String
  avgLeadTime : ℚ
  deriving Repr, DecidableEq

/-- The QA-vs-failed branch of `useQualityReworkData`: a rejected or
unsuccessful settled outcome leaves the series at its `[]` default; a
fulfilled successful one is mapped through the label fallback chain. -/
def qaRows (res : Settled (ApiResponse (List QAItem))) : List QARow :=
  match res with
  | .fulfilled v =>
    if v.success then
      v.data.map (fun it =>
        { sprint := jsOrString it.sprint
            (jsOrString it.sprintName (jsOrString it.week (jsOrString it.weekLabel ""))),
          qaExecuted := it.qaExecuted, failedQA := it.failedQA })
    else []
  | .rejected _ => []

/-- The rework-ratio branch of `useQualityReworkData`, independent of
the QA branch, with the same default-on-failure shape. -/
def reworkRows (res : Settled (ApiResponse (List ReworkItem))) : List ReworkRow :=
  match res with
  | .fulfilled v =>
    if v.success then
      v.data.map (fun it =>
        { week := formatWeekLabel
            (jsOrString it.weekLabelField (jsOrString it.weekLower (jsOrString it.weekCap ""))),
          cleanDelivery := it.cleanDelivery, rework := it.rework })
    else []
  | .rejected _ => []

/-- The lead-time transformation of `useQualityReworkData`. -/
def leadTimeRows (items : List LeadTimeItem) : List LeadTimeRow :=
  (items.map (fun it =>
    { week := formatWeekLabel (jsOrString it.weekLabel (jsOrString it.week "")),
      avgLeadTime := it.avgLeadTime.getD 0 })).filter (fun r => r.week ≠ "")

/-- The data the quality-and-rework section renders. -/
structure QualityReworkData where
  qaVsFailed : List QARow
  leadTimeTrend : List LeadTimeRow
  reworkRatioSeries : List ReworkRow
  deriving Repr, DecidableEq

/-- The decision logic of `useQualityReworkData`: a failed lead-time
response throws (nothing is delivered); otherwise the QA and rework
series are built from their independently settled outcomes, each
defaulting to `[]` on its own failure. -/
def qualityReworkResult (lt : ApiResponse (List LeadTimeItem))
    (qa : Settled (ApiResponse (List QAItem)))
    (rr : Settled (ApiResponse (List ReworkItem))) :
    Except String QualityReworkData :=
  if !lt.success then .error (jsOrString lt.error "Failed to fetch lead time data")
  else .ok { qaVsFailed := qaRows qa, leadTimeTrend := leadTimeRows lt.data,
             reworkRatioSeries := reworkRows rr }

/-! ### Backend metric formulas (modelled from the spec where the
backend implementation is not part of the repository snapshot) -/

/-- The flags of one issue that the rework ratio depends on. -/
structure IssueFlags where
  resolved : Bool
  reworked : Bool
  deriving Repr, DecidableEq

/-- Modelled from the spec: the backend MetricsCalculator's rework
ratio (`app/services/chart_calculations.py` is not in the snapshot) —
count(Reworked) / count(resolved-in-period) over the resolved issues
only, defined as 0 when no issue resolved in the period. -/
def reworkRatioOf (issues : List IssueFlags) : ℚ :=
  if (issues.filter (fun i => i.resolved)).length = 0 then 0
  else ((issues.filter (fun i => i.resolved && i.reworked)).length : ℚ)
      / ((issues.filter (fun i => i.resolved)).length : ℚ)

/-- `Math.round` over rationals: round half toward positive infinity. -/
def jsRound (q : ℚ) : ℤ := ⌊q + 1 / 2⌋

/-- The executive-summary hook's display value for the rework ratio:
`Math.round(((rework_ratio || 0) * 100) * 10) / 10` — the raw ratio
scaled by 100 and rounded to one decimal. -/
def execSummaryReworkDisplay (rawValue : Option ℚ) : ℚ :=
  (jsRound ((rawValue.getD 0) * 100 * 10) : ℚ) / 10

/-- Rounding to one decimal place: scale by ten, round, scale back. -/
def roundTo1Decimal (q : ℚ) : ℚ := (jsRound (q * 10) : ℚ) / 10

/-- Per-bucket Done and Planned counts. -/
structure BucketCount where
  done : Nat
  planned : Nat
  deriving Repr, DecidableEq

/-- Modelled from the spec: completion rate Done / Planned x 100 with
the division-by-zero case defined as 0. -/
def completionRate (done planned : Nat) : ℚ :=
  if planned = 0 then 0 else (done : ℚ) / (planned : ℚ) * 100

/-- Modelled from the spec: the completion rate over the full
requested period — totals first, one division. -/
def completionRateFullPeriod (buckets : List BucketCount) : ℚ :=
  completionRate (buckets.map (fun b => b.done)).sum (buckets.map (fun b => b.planned)).sum

/-- The alternative the spec rules out: per-bucket rates averaged. -/
def completionRatePerBucketAvg (buckets : List BucketCount) : ℚ :=
  if buckets.length = 0 then 0
  else (buckets.map (fun b => completionRate b.done b.planned)).sum / (buckets.length : ℚ)

/-- One generated weekly bucket: its week index, its label and its
(zero-filled) count of issues resolved in it. -/
structure BackendBucket where
  weekNum : Nat
  weekLabel : String
  done : Nat
  deriving Repr, DecidableEq

/-- The deterministic label of week `w`. -/
def mkWeekLabel (w : Nat) : String := "W" ++ toString w

/-- Modelled from the spec: backend weekly bucket generation — exactly
`n` contiguous, evenly spaced weekly buckets starting at `startWeek`,
each present even when its issue count is zero. -/
def genWeeklySeries (startWeek n : Nat) (resolvedWeeks : List Nat) : List BackendBucket :=
  (List.range n).map (fun i =>
    { weekNum := startWeek + i,
      weekLabel := mkWeekLabel (startWeek + i),
      done := resolvedWeeks.count (startWeek + i) })

/-- A backend bucket serialized as the JSON row the frontend reads. -/
def bucketToChartItem (b : BackendBucket) : ChartItem :=
  { weekLabel := some b.weekLabel, week := none,
    planned := 0, done := b.done, inProgress := 0, carryOver := 0 }

/-! ### Task-load chart sorting -/

/-- One task-load data point as rendered by `TaskLoadChart`. -/
structure TaskLoadPoint where
  assignee : String
  tasks : Nat
  deriving Repr, DecidableEq

/-- `[...data].sort((a, b) => b.tasks - a.tasks)`: sort a copy of the
series descending by task count. -/
def sortTaskLoad (data : List TaskLoadPoint) : List TaskLoadPoint :=
  data.mergeSort (fun a b => b.tasks ≤ a.tasks)

/-! ### Snapshot cache refresh coalescing (modelled from the spec) -/

/-- Modelled from the spec: the SnapshotCache state
(`app/services/data_cache.py` is not in the snapshot) — the current
snapshot, the refresh-in-progress flag and a count of upstream fetches
started. -/
structure CacheState (σ : Type) where
  current : σ
  refreshInFlight : Bool
  fetchCount : Nat
  deriving Repr, DecidableEq

/-- Modelled from the spec: one stale-triggered refresh call under the
single lock of the concurrency model — atomically check the in-flight
flag; if set, the trigger is a no-op; otherwise mark it and start one
upstream fetch. Either way the caller is handed the current (possibly
pre-refresh) snapshot without waiting for the refresh to finish. -/
def triggerRefresh {σ : Type} (s : CacheState σ) : CacheState σ × σ :=
  if s.refreshInFlight then (s, s.current)
  else ({ s with refreshInFlight := true, fetchCount := s.fetchCount + 1 }, s.current)

/-- `k` stale triggers in the order the lock serializes them,
collecting each caller's returned snapshot. -/
def triggerRefreshK {σ : Type} (s : CacheState σ) : Nat → CacheState σ × List σ
  | 0 => (s, [])
  | k + 1 =>
    let r1 := triggerRefresh s
    let rk := triggerRefreshK r1.1 k
    (rk.1, r1.2 :: rk.2)

/-! ### CSV export -/

/-- A JS string in the CSV export, embedded as its character
sequence (all the operations `exportToCSV` performs — `includes`,
`replace`, `join` — are per-character). -/
abbrev JsStr : Type := List Char

/-- A row handed to `exportToCSV`: a JS object as an association list
(keys are unique in a JS object; a `none` value covers both a `null`
property and an absent key read as `undefined`). -/
abbrev Row : Type := List (JsStr × Option JsStr)

/-- `row[header]`: first matching key, `undefined` when absent. -/
def getField (row : Row) (k : JsStr) : Option JsStr :=
  match row.find? (fun p => p.1 == k) with
  | some p => p.2
  | none => none

/-- Helper for `jsSetDedup`, threading the set of keys already seen. -/
def jsSetDedupGo : List JsStr → List JsStr → List JsStr
  | [], _ => []
  | x :: xs, seen =>
    if x ∈ seen then jsSetDedupGo xs seen else x :: jsSetDedupGo xs (x :: seen)

/-- `Array.from(new Set(l))`: deduplicate keeping first occurrences in
order. -/
def jsSetDedup (l : List JsStr) : List JsStr := jsSetDedupGo l []

/-- The header row of `exportToCSV`: the union of all rows' keys in
first-appearance order. -/
def csvHeaders (rows : List Row) : List JsStr :=
  jsSetDedup (rows.flatMap (fun r => r.map (fun p => p.1)))

/-- `stringValue.replace(/"/g, '""')`: double every double quote. -/
def escapeQuotes : JsStr → JsStr
  | [] => []
  | c :: rest =>
    if c = '"' then '"' :: '"' :: escapeQuotes rest else c :: escapeQuotes rest

/-- The escaping in `exportToCSV`: null/undefined becomes the empty
field; a value containing a comma, double quote or newline is wrapped
in double quotes with embedded double quotes doubled; anything else is
emitted verbatim. -/
def escapeCSV : Option JsStr → JsStr
  | none => []
  | some s =>
    if s.contains ',' || s.contains '"' || s.contains '\n' then
      '"' :: (escapeQuotes s ++ ['"'])
    else s

/-- The cells of one data row, one per header. -/
def csvCells (hs : List JsStr) (r : Row) : List JsStr :=
  hs.map (fun h => escapeCSV (getField r h))

/-- The lines of the generated CSV: the comma-joined header row
followed by one comma-joined data row per input row. -/
def csvLines (rows : List Row) : List JsStr :=
  List.intercalate [','] (csvHeaders rows)
    :: rows.map (fun r => List.intercalate [','] (csvCells (csvHeaders rows) r))

/-- The full `csvContent` built by `exportToCSV` (rows joined with a
newline). -/
def csvContent (rows : List Row) : JsStr := List.intercalate ['\n'] (csvLines rows)

/-! ## Theorems -/

/-- C1: for every API endpoint call, when the HTTP fetch fails or the
server responds with a non-OK status, `fetchApi` returns (it is a
total function, so it never throws to its caller) an envelope with
`success = false`, `data` equal to the empty sequence and `error`
carrying a message; on success it returns the parsed body unchanged. -/
theorem fetchApi_failure_envelope {α : Type} (r : FetchResult (List α)) :
    ((∃ b, r = FetchResult.ok b)
      ∨ ((fetchApi r).success = false ∧ (fetchApi r).data = []
          ∧ ∃ msg, (fetchApi r).error = some msg))
    ∧ (∀ b, r = FetchResult.ok b → fetchApi r = b) := by
  constructor
  · cases r with
    | ok b => exact Or.inl ⟨b, rfl⟩
    | netError m => exact Or.inr ⟨rfl, rfl, _, rfl⟩
    | httpError st txt pe => exact Or.inr ⟨rfl, rfl, _, rfl⟩
  · intro b hb
    cases hb
    rfl

/-- Witness for C1 at a concrete successful response. -/
theorem fetchApi_failure_envelope_witness :
    fetchApi (FetchResult.ok { success := true, data := [(1 : Nat)] })
      = { success := true, data := [(1 : Nat)] } :=
  (fetchApi_failure_envelope (FetchResult.ok _)).2 _ rfl

/-- C2 counterexample: in `useThroughputData`, the failure of the
planned-vs-done call alone prevents the successfully fetched
weekly-flow data from being delivered to the rendering layer — the
hook throws on the first failed envelope, leaving no data at all, even
though the weekly-flow response succeeded with a nonempty series. -/
theorem throughput_failure_blocks_other_metric :
    (throughputResult
        (fetchApi (FetchResult.netError (some "connection refused")))
        { success := true,
          data := [{ weekLabel := some "W5", week := none, planned := 3, done := 2,
                     inProgress := 1, carryOver := 0 }] }).isOk = false
    ∧ transformWeeklyFlow
        [{ weekLabel := some "W5", week := none, planned := 3, done := 2,
           inProgress := 1, carryOver := 0 }] ≠ [] := by
  constructor
  · rfl
  · decide

/-- C2 (amended): independent delivery holds only for the QA-vs-failed
and rework-ratio calls inside `useQualityReworkData` (issued through
`Promise.allSettled`): given a successful lead-time response, the hook
always delivers data, and the rework-ratio series it delivers does not
depend on the QA call's outcome, the QA series does not depend on the
rework call's outcome, and the lead-time series depends on neither. -/
theorem qualityRework_independent_delivery (lt : ApiResponse (List LeadTimeItem))
    (qa qa2 : Settled (ApiResponse (List QAItem)))
    (rr rr2 : Settled (ApiResponse (List ReworkItem)))
    (hlt : lt.success = true) :
    (qualityReworkResult lt qa rr).isOk = true
    ∧ (qualityReworkResult lt qa rr).map (fun d => d.reworkRatioSeries)
        = (qualityReworkResult lt qa2 rr).map (fun d => d.reworkRatioSeries)
    ∧ (qualityReworkResult lt qa rr).map (fun d => d.qaVsFailed)
        = (qualityReworkResult lt qa rr2).map (fun d => d.qaVsFailed)
    ∧ (qualityReworkResult lt qa rr).map (fun d => d.leadTimeTrend)
        = (qualityReworkResult lt qa2 rr2).map (fun d => d.leadTimeTrend) := by
  simp [qualityReworkResult, hlt, Except.map, Except.isOk, Except.toBool]

/-- Witness for the amended C2 at a concrete successful lead-time
response with both settled calls rejected. -/
theorem qualityRework_independent_delivery_witness :
    (qualityReworkResult { success := true, data := [] }
        (Settled.rejected "qa down") (Settled.rejected "rework down")).isOk = true :=
  (qualityRework_independent_delivery { success := true, data := [] }
    (Settled.rejected "qa down") (Settled.rejected "qa down")
    (Settled.rejected "rework down") (Settled.rejected "rework down") rfl).1

/-- `appendParams` distributes over concatenation of the parameter
object's entries. -/
theorem appendParams_append (xs ys : List (String × ParamValue)) :
    appendParams (xs ++ ys) = appendParams xs ++ appendParams ys := by
  simp [appendParams]

/-- Filtering an assignee-keyed segment for the assignee key keeps it
whole. -/
theorem filter_assignee_map (as : List String) :
    ((as.map (fun v => ("assignee", v))).filter
      (fun p : String × String => p.1 == "assignee")) = as.map (fun v => ("assignee", v)) := by
  induction as with
  | nil => rfl
  | cons a t ih => simp [List.filter_cons, ih]

/-- C3: for every metric request with an assignee filter of `n`
assignees, the encoded request contains exactly `n` repeated
`assignee` query parameters, one per element in order; a single
assignee string is first wrapped into a one-element list; every
non-array parameter (here `num_weeks` and, when present,
`start_date`) is appended exactly once as its string form. -/
theorem assignee_params_encoding (numWeeks : Int) (sd ed it : Option String)
    (as : List String) (n : Nat) (a : String) (hlen : as.length = n) (_hn : 1 ≤ n) :
    ((appendParams (getWeeklyFlowParams numWeeks sd ed (some (AssigneeArg.multi as)) it)).filter
        (fun p => p.1 == "assignee")) = as.map (fun v => ("assignee", v))
    ∧ ((appendParams (getWeeklyFlowParams numWeeks sd ed (some (AssigneeArg.multi as)) it)).countP
        (fun p => p.1 == "assignee")) = n
    ∧ ((appendParams (getWeeklyFlowParams numWeeks sd ed (some (AssigneeArg.multi as)) it)).filter
        (fun p => p.1 == "num_weeks")) = [("num_weeks", toString numWeeks)]
    ∧ (∀ s, sd = some s →
        ((appendParams (getWeeklyFlowParams numWeeks sd ed (some (AssigneeArg.multi as)) it)).filter
          (fun p => p.1 == "start_date")) = [("start_date", s)])
    ∧ getWeeklyFlowParams numWeeks sd ed (some (AssigneeArg.single a)) it
        = getWeeklyFlowParams numWeeks sd ed (some (AssigneeArg.multi [a])) it := by
  refine ⟨?_, ?_, ?_, ?_, rfl⟩
  · cases sd <;> cases ed <;> cases it <;>
      simp [getWeeklyFlowParams, appendParams_append, appendParams, optStrParam,
        assigneeParam, filter_assignee_map]
  · rw [List.countP_eq_length_filter]
    cases sd <;> cases ed <;> cases it <;>
      · rw [show ((appendParams (getWeeklyFlowParams numWeeks _ _ (some (AssigneeArg.multi as)) _)).filter
            (fun p => p.1 == "assignee")) = as.map (fun v => ("assignee", v)) by
          simp [getWeeklyFlowParams, appendParams_append, appendParams, optStrParam,
            assigneeParam, filter_assignee_map]]
        simp [hlen]
  · cases sd <;> cases ed <;> cases it <;>
      simp [getWeeklyFlowParams, appendParams_append, appendParams, optStrParam,
        assigneeParam, List.filter_map]
  · intro s hs
    subst hs
    cases ed <;> cases it <;>
      simp [getWeeklyFlowParams, appendParams_append, appendParams, optStrParam,
        assigneeParam, List.filter_map]

/-- Witness for C3 at a two-assignee filter with explicit dates. -/
theorem assignee_params_encoding_witness :
    ((appendParams (getWeeklyFlowParams 12 (some "2024-01-01") none
        (some (AssigneeArg.multi ["alice", "bob"])) (some "Bug"))).countP
      (fun p => p.1 == "assignee")) = 2 :=
  (assignee_params_encoding 12 (some "2024-01-01") none (some "Bug")
    ["alice", "bob"] 2 "alice" rfl (by decide)).2.1

/-- The issue-type segment never yields pairs with another key. -/
theorem filter_issueTypeSeg (it : Option String) (k : String) (h : ("issueType" == k) = false) :
    (issueTypeSeg it).filter (fun p => p.1 == k) = [] := by
  cases it with
  | none => rfl
  | some t =>
    simp only [issueTypeSeg]
    split
    · simp [List.filter_cons, h]
    · rfl

/-- A date segment never yields pairs with another key. -/
theorem filter_dateSeg (dk : String) (d : Option String) (k : String)
    (h : (dk == k) = false) :
    (dateSeg dk d).filter (fun p => p.1 == k) = [] := by
  cases d with
  | none => rfl
  | some s =>
    simp only [dateSeg]
    split
    · simp [List.filter_cons, h]
    · rfl

/-- The single-assignee segment never yields pairs with another key. -/
theorem filter_assigneeSegSingle (a : Option String) (k : String)
    (h : ("assignee" == k) = false) :
    (assigneeSegSingle a).filter (fun p => p.1 == k) = [] := by
  cases a with
  | none => rfl
  | some v =>
    simp only [assigneeSegSingle]
    split
    · simp [List.filter_cons, h]
    · rfl

/-- The assignee loop body only ever emits `assignee`-keyed pairs. -/
theorem filter_assignee_flatMap (as : List String) :
    ((as.flatMap fun v =>
        if v ≠ "" ∧ v ≠ "All Assignees" then [("assignee", v)] else []).filter
      (fun p : String × String => p.1 == "issueType")) = [] := by
  have hk : (("assignee" : String) == "issueType") = false := by decide
  induction as with
  | nil => rfl
  | cons b t ih =>
    rw [List.flatMap_cons, List.filter_append, ih, List.append_nil]
    split
    · simp [List.filter_cons, hk]
    · rfl

/-- The multi-assignee segment never emits `issueType`-keyed pairs. -/
theorem filter_assigneeSegMulti_issueType (as : List String) :
    (assigneeSegMulti as).filter (fun p => p.1 == "issueType") = [] := by
  simp only [assigneeSegMulti]
  split
  · exact filter_assignee_flatMap as
  · rfl

/-- A leading sentinel `All Assignees` entry contributes nothing to
the multi-assignee segment. -/
theorem assigneeSegMulti_sentinel_cons (rest : List String) :
    assigneeSegMulti ("All Assignees" :: rest) = assigneeSegMulti rest := by
  cases rest with
  | nil => rfl
  | cons b t => simp [assigneeSegMulti]

/-- C4: neither filter context emits an `assignee` parameter when the
selection is empty nor an `issueType` parameter when no type is
selected, and the sentinel selections `All Assignees` and `All Types`
are omitted — an empty selection means no filtering. -/
theorem filter_params_empty_means_no_filter (it ds de : Option String)
    (as rest : List String) (a : Option String) :
    ((getFilterParamsMulti [] it ds de).filter (fun p => p.1 == "assignee") = [])
    ∧ ((getFilterParamsMulti as none ds de).filter (fun p => p.1 == "issueType") = [])
    ∧ (getFilterParamsMulti ("All Assignees" :: rest) it ds de
        = getFilterParamsMulti rest it ds de)
    ∧ ((getFilterParamsMulti as (some "All Types") ds de).filter
        (fun p => p.1 == "issueType") = [])
    ∧ ((getFilterParamsSingle none it ds de).filter (fun p => p.1 == "assignee") = [])
    ∧ ((getFilterParamsSingle (some "All Assignees") it ds de).filter
        (fun p => p.1 == "assignee") = [])
    ∧ ((getFilterParamsSingle a none ds de).filter (fun p => p.1 == "issueType") = [])
    ∧ ((getFilterParamsSingle a (some "All Types") ds de).filter
        (fun p => p.1 == "issueType") = []) := by
  have hita : ("issueType" == "assignee") = false := by decide
  have hsa : ("startDate" == "assignee") = false := by decide
  have hea : ("endDate" == "assignee") = false := by decide
  have hai : ("assignee" == "issueType") = false := by decide
  have hsi : ("startDate" == "issueType") = false := by decide
  have hei : ("endDate" == "issueType") = false := by decide
  refine ⟨?_, ?_, ?_, ?_, ?_, ?_, ?_, ?_⟩
  · rw [getFilterParamsMulti]
    simp only [List.filter_append]
    rw [filter_issueTypeSeg _ _ hita, filter_dateSeg _ _ _ hsa, filter_dateSeg _ _ _ hea]
    rfl
  · rw [getFilterParamsMulti]
    simp only [List.filter_append]
    rw [filter_assigneeSegMulti_issueType, filter_dateSeg _ _ _ hsi,
      filter_dateSeg _ _ _ hei]
    rfl
  · rw [getFilterParamsMulti, getFilterParamsMulti, assigneeSegMulti_sentinel_cons]
  · rw [getFilterParamsMulti]
    simp only [List.filter_append]
    rw [filter_assigneeSegMulti_issueType, filter_dateSeg _ _ _ hsi,
      filter_dateSeg _ _ _ hei]
    rfl
  · rw [getFilterParamsSingle]
    simp only [List.filter_append]
    rw [filter_issueTypeSeg _ _ hita, filter_dateSeg _ _ _ hsa, filter_dateSeg _ _ _ hea]
    rfl
  · rw [getFilterParamsSingle]
    simp only [List.filter_append]
    rw [filter_issueTypeSeg _ _ hita, filter_dateSeg _ _ _ hsa, filter_dateSeg _ _ _ hea]
    rfl
  · rw [getFilterParamsSingle]
    simp only [List.filter_append]
    rw [filter_assigneeSegSingle _ _ hai, filter_dateSeg _ _ _ hsi,
      filter_dateSeg _ _ _ hei]
    rfl
  · rw [getFilterParamsSingle]
    simp only [List.filter_append]
    rw [filter_assigneeSegSingle _ _ hai, filter_dateSeg _ _ _ hsi,
      filter_dateSeg _ _ _ hei]
    rfl

/-- Among the resolved issues, the reworked ones are no more numerous. -/
theorem reworked_le_resolved (issues : List IssueFlags) :
    (issues.filter (fun i => i.resolved && i.reworked)).length
      ≤ (issues.filter (fun i => i.resolved)).length := by
  rw [← List.countP_eq_length_filter, ← List.countP_eq_length_filter]
  exact List.countP_mono_left (fun i _ h => by
    simp only [Bool.and_eq_true] at h
    exact h.1)

/-- `jsRound` is within a half of its argument. -/
theorem jsRound_close (q : ℚ) : |(jsRound q : ℚ) - q| ≤ 1 / 2 := by
  rw [abs_le]
  unfold jsRound
  constructor
  · have h := Int.sub_one_lt_floor (q + 1 / 2)
    push_cast at h ⊢
    linarith
  · have h := Int.floor_le (q + 1 / 2)
    push_cast at h ⊢
    linarith

/-- C5: the rework ratio is count(Reworked) / count(resolved), always
in `[0, 1]` and not pre-multiplied by 100, and defined as 0 when the
resolved count is zero; the executive-summary hook's displayed value
is exactly the ratio times 100 rounded to one decimal (hence within
0.05 of the exact percentage). -/
theorem rework_ratio_spec (issues : List IssueFlags) :
    0 ≤ reworkRatioOf issues
    ∧ reworkRatioOf issues ≤ 1
    ∧ ((issues.filter (fun i => i.resolved)).length = 0 → reworkRatioOf issues = 0)
    ∧ execSummaryReworkDisplay (some (reworkRatioOf issues))
        = roundTo1Decimal (reworkRatioOf issues * 100)
    ∧ |execSummaryReworkDisplay (some (reworkRatioOf issues))
        - reworkRatioOf issues * 100| ≤ 1 / 20 := by
  refine ⟨?_, ?_, ?_, ?_, ?_⟩
  · unfold reworkRatioOf
    split
    · exact le_refl 0
    · positivity
  · unfold reworkRatioOf
    split
    · exact zero_le_one
    · rename_i hne
      rw [div_le_one (by positivity)]
      exact_mod_cast reworked_le_resolved issues
  · intro h
    unfold reworkRatioOf
    simp [h]
  · unfold execSummaryReworkDisplay roundTo1Decimal
    simp only [Option.getD_some]
  · unfold execSummaryReworkDisplay
    have h := jsRound_close (reworkRatioOf issues * 100 * 10)
    rw [abs_le] at h ⊢
    simp only [Option.getD_some]
    constructor <;> [linarith [h.1]; linarith [h.2]]

/-- Witness for C5 at a list with no resolved issue. -/
theorem rework_ratio_spec_witness :
    reworkRatioOf [{ resolved := false, reworked := true }] = 0 :=
  (rework_ratio_spec [{ resolved := false, reworked := true }]).2.2.1 (by rfl)

/-- C6: the completion rate is Done / Planned x 100 over the full
requested period (one division over the period totals — demonstrably
different from averaging per-bucket rates), and a zero Planned total
yields 0 rather than an error. -/
theorem completion_rate_spec (buckets : List BucketCount) :
    ((buckets.map (fun b => b.planned)).sum = 0 → completionRateFullPeriod buckets = 0)
    ∧ ((buckets.map (fun b => b.planned)).sum ≠ 0 →
        completionRateFullPeriod buckets
          = ((buckets.map (fun b => b.done)).sum : ℚ)
              / ((buckets.map (fun b => b.planned)).sum : ℚ) * 100)
    ∧ (0 ≤ completionRateFullPeriod buckets)
    ∧ completionRateFullPeriod [{ done := 1, planned := 1 }, { done := 0, planned := 100 }]
        ≠ completionRatePerBucketAvg
            [{ done := 1, planned := 1 }, { done := 0, planned := 100 }] := by
  refine ⟨?_, ?_, ?_, ?_⟩
  · intro h
    unfold completionRateFullPeriod completionRate
    simp [h]
  · intro h
    unfold completionRateFullPeriod completionRate
    rw [if_neg h]
    norm_cast
    rw [List.map_map, List.map_map]
    rfl
  · unfold completionRateFullPeriod completionRate
    split
    · exact le_refl 0
    · positivity
  · norm_num [completionRateFullPeriod, completionRatePerBucketAvg, completionRate]

/-- Witness for C6 at an empty bucket list and a concrete nonzero one. -/
theorem completion_rate_spec_witness :
    completionRateFullPeriod [{ done := 0, planned := 0 }] = 0
    ∧ completionRateFullPeriod [{ done := 3, planned := 4 }] = (3 : ℚ) / 4 * 100 := by
  constructor
  · exact (completion_rate_spec [{ done := 0, planned := 0 }]).1 (by rfl)
  · have h := (completion_rate_spec [{ done := 3, planned := 4 }]).2.1 (by norm_num)
    simpa using h

/-- A string starting with `W` is never empty. -/
theorem appendW_ne_empty (s : String) : ("W" ++ s) ≠ "" := by
  obtain ⟨ds⟩ := s
  intro h
  have h2 := congrArg String.data h
  simp [String.data_append] at h2

/-- `formatWeekLabel` maps nonempty labels to nonempty labels: a
matched label becomes `W` plus digits and an unmatched one is returned
verbatim. -/
theorem formatWeekLabel_ne_empty (label : String) (h : label ≠ "") :
    formatWeekLabel label ≠ "" := by
  unfold formatWeekLabel
  rw [if_neg h]
  cases hw : wDigits label.toList with
  | none => exact h
  | some ds => exact appendW_ne_empty (String.mk ds)

/-- The generated labels are nonempty. -/
theorem mkWeekLabel_ne_empty (w : Nat) : mkWeekLabel w ≠ "" :=
  appendW_ne_empty (toString w)

/-- The frontend planned-vs-done transformation drops no row whose raw
week label is nonempty. -/
theorem transformPlannedVsDone_length (items : List ChartItem)
    (h : ∀ it ∈ items, rawWeekLabel it ≠ "") :
    (transformPlannedVsDone items).length = items.length := by
  unfold transformPlannedVsDone
  rw [List.filter_eq_self.mpr, List.length_map]
  intro r hr
  rw [List.mem_map] at hr
  obtain ⟨it, hit, hre⟩ := hr
  subst hre
  simpa using formatWeekLabel_ne_empty _ (h it hit)

/-- C7: for a weekly request with window count `n`, the generated
bucket series has exactly `n` entries with contiguous, evenly spaced
week indices and deterministic labels; buckets with zero matching
issues are present as zero-count entries, never omitted; and the
frontend transformation — which drops any entry whose formatted week
label is empty — still returns exactly `n` rows because every
generated label is nonempty. -/
theorem bucket_series_complete (startWeek n : Nat) (resolvedWeeks : List Nat) :
    (genWeeklySeries startWeek n resolvedWeeks).length = n
    ∧ (genWeeklySeries startWeek n resolvedWeeks).map (fun b => b.weekNum)
        = (List.range n).map (fun i => startWeek + i)
    ∧ (∀ b ∈ genWeeklySeries startWeek n resolvedWeeks,
        b.done = resolvedWeeks.count b.weekNum ∧ b.weekLabel = mkWeekLabel b.weekNum)
    ∧ (transformPlannedVsDone
        ((genWeeklySeries startWeek n resolvedWeeks).map bucketToChartItem)).length = n := by
  refine ⟨?_, ?_, ?_, ?_⟩
  · simp [genWeeklySeries]
  · simp [genWeeklySeries, List.map_map]
  · intro b hb
    rw [genWeeklySeries, List.mem_map] at hb
    obtain ⟨i, _, hbe⟩ := hb
    subst hbe
    exact ⟨rfl, rfl⟩
  · rw [transformPlannedVsDone_length]
    · simp [genWeeklySeries]
    · intro it hit
      rw [List.mem_map] at hit
      obtain ⟨b, hb, hite⟩ := hit
      subst hite
      rw [genWeeklySeries, List.mem_map] at hb
      obtain ⟨i, _, hbe⟩ := hb
      subst hbe
      simp [bucketToChartItem, rawWeekLabel, jsOrString,
        mkWeekLabel_ne_empty (startWeek + i)]

/-- C8: the task-load series as rendered is a permutation of the input
(the multiset of (assignee, count) pairs is unchanged) and is sorted
in descending order of task count — every element's count is greater
than or equal to every later element's count, in particular the one
that follows it. -/
theorem task_load_sorted (data : List TaskLoadPoint) :
    List.Perm (sortTaskLoad data) data
    ∧ (sortTaskLoad data).Pairwise (fun a b => b.tasks ≤ a.tasks) := by
  constructor
  · exact List.mergeSort_perm data _
  · have h := @List.sorted_mergeSort TaskLoadPoint
      (fun a b : TaskLoadPoint => decide (b.tasks ≤ a.tasks))
      (fun a b c hab hbc => by
        simp only [decide_eq_true_eq] at hab hbc ⊢
        exact le_trans hbc hab)
      (fun a b => by
        simp only [Bool.or_eq_true, decide_eq_true_eq]
        exact Nat.le_total b.tasks a.tasks)
      data
    exact h.imp (fun hab => by simpa using hab)

/-- Once a refresh is in flight, further stale triggers change nothing
and each hands back the current snapshot. -/
theorem triggerRefreshK_inFlight {σ : Type} (t : CacheState σ)
    (ht : t.refreshInFlight = true) (k : Nat) :
    triggerRefreshK t k = (t, List.replicate k t.current) := by
  induction k with
  | zero => rfl
  | succ k ih => simp [triggerRefreshK, triggerRefresh, ht, ih, List.replicate_succ]

/-- C9: issuing `k ≥ 1` stale-triggered refresh calls against a cache
with no refresh in flight starts exactly one upstream fetch — the
remaining `k - 1` triggers are no-ops — and every one of the `k`
callers is handed the current (pre-refresh) snapshot immediately, not
the refresh result. -/
theorem cache_refresh_coalescing {σ : Type} (s : CacheState σ) (k : Nat)
    (hk : 1 ≤ k) (hflight : s.refreshInFlight = false) :
    (triggerRefreshK s k).1.fetchCount = s.fetchCount + 1
    ∧ (triggerRefreshK s k).2 = List.replicate k s.current := by
  obtain ⟨k, rfl⟩ : ∃ m, k = m + 1 := ⟨k - 1, (Nat.succ_pred_eq_of_pos hk).symm⟩
  have hstep : triggerRefresh s
      = ({ s with refreshInFlight := true, fetchCount := s.fetchCount + 1 }, s.current) := by
    simp [triggerRefresh, hflight]
  have hrest := triggerRefreshK_inFlight
    ({ s with refreshInFlight := true, fetchCount := s.fetchCount + 1 }) rfl k
  constructor
  · simp [triggerRefreshK, hstep, hrest]
  · simp [triggerRefreshK, hstep, hrest, List.replicate_succ]

/-- Witness for C9 with three concurrent triggers on a fresh cache. -/
theorem cache_refresh_coalescing_witness :
    (triggerRefreshK
      ({ current := 42, refreshInFlight := false, fetchCount := 0 } : CacheState Nat)
      3).1.fetchCount = 1 := by
  have h := cache_refresh_coalescing
    ({ current := 42, refreshInFlight := false, fetchCount := 0 } : CacheState Nat)
    3 (by decide) rfl
  simpa using h.1

/-- Witness for C7 at a three-week window with two issues resolved in
the middle week. -/
theorem bucket_series_complete_witness :
    (genWeeklySeries 10 3 [11, 11]).length = 3
    ∧ ({ weekNum := 11, weekLabel := mkWeekLabel 11, done := 2 } : BackendBucket).done
        = List.count 11 [11, 11] := by
  refine ⟨(bucket_series_complete 10 3 [11, 11]).1, ?_⟩
  exact ((bucket_series_complete 10 3 [11, 11]).2.2.1
    { weekNum := 11, weekLabel := mkWeekLabel 11, done := 2 } (by decide)).1

/-- Membership in the seen-threading dedup helper. -/
theorem mem_jsSetDedupGo (l : List JsStr) (x : JsStr) :
    ∀ seen, (x ∈ jsSetDedupGo l seen ↔ x ∈ l ∧ x ∉ seen) := by
  induction l with
  | nil =>
    intro seen
    simp [jsSetDedupGo]
  | cons a t ih =>
    intro seen
    rw [jsSetDedupGo]
    split
    · rename_i ha
      rw [ih]
      simp only [List.mem_cons]
      constructor
      · rintro ⟨h1, h2⟩
        exact ⟨Or.inr h1, h2⟩
      · rintro ⟨h1 | h1, h2⟩
        · subst h1
          exact absurd ha h2
        · exact ⟨h1, h2⟩
    · rename_i ha
      simp only [List.mem_cons, ih]
      constructor
      · rintro (rfl | ⟨h1, h2⟩)
        · exact ⟨Or.inl rfl, ha⟩
        · push_neg at h2
          exact ⟨Or.inr h1, h2.2⟩
      · rintro ⟨rfl | h1, h2⟩
        · exact Or.inl rfl
        · by_cases hxa : x = a
          · exact Or.inl hxa
          · right
            refine ⟨h1, ?_⟩
            push_neg
            exact ⟨hxa, h2⟩

/-- `jsSetDedup` keeps exactly the elements of its input. -/
theorem mem_jsSetDedup (l : List JsStr) (x : JsStr) :
    x ∈ jsSetDedup l ↔ x ∈ l := by
  rw [jsSetDedup, mem_jsSetDedupGo]
  simp

/-- `escapeQuotes` doubles every double quote character. -/
theorem escapeQuotes_count (s : JsStr) :
    (escapeQuotes s).count '"' = 2 * s.count '"' := by
  induction s with
  | nil => rfl
  | cons c t ih =>
    by_cases hc : c = '"'
    · subst hc
      have h1 : escapeQuotes ('"' :: t) = '"' :: '"' :: escapeQuotes t := by
        simp [escapeQuotes]
      rw [h1, List.count_cons, List.count_cons, List.count_cons, ih]
      simp
      omega
    · have h1 : escapeQuotes (c :: t) = c :: escapeQuotes t := by
        simp [escapeQuotes, hc]
      have h2 : (c == '"') = false := by simpa using hc
      rw [h1, List.count_cons, List.count_cons, ih]
      simp [h2]

/-- C10: for a non-empty input, the generated CSV has one header line
plus one line per row; the header is precisely the union of the keys
of all rows; every data row has exactly as many fields as there are
headers; a value containing a comma, double quote or newline is
emitted wrapped in double quotes with each embedded double quote
doubled; and a null or undefined value is emitted as the empty
field. -/
theorem export_to_csv_spec (rows : List Row) (_hrows : rows ≠ []) :
    (csvLines rows).length = rows.length + 1
    ∧ (csvLines rows).head? = some (List.intercalate [','] (csvHeaders rows))
    ∧ (∀ k : JsStr, k ∈ csvHeaders rows ↔ ∃ r ∈ rows, k ∈ r.map (fun p => p.1))
    ∧ (∀ r ∈ rows, (csvCells (csvHeaders rows) r).length = (csvHeaders rows).length)
    ∧ (∀ s : JsStr, (s.contains ',' || s.contains '"' || s.contains '\n') = true →
        escapeCSV (some s) = '"' :: (escapeQuotes s ++ ['"'])
          ∧ (escapeCSV (some s)).count '"' = 2 * s.count '"' + 2)
    ∧ escapeCSV none = [] := by
  refine ⟨by simp [csvLines], rfl, ?_, ?_, ?_, rfl⟩
  · intro k
    rw [csvHeaders, mem_jsSetDedup]
    simp [List.mem_flatMap]
  · intro r _
    simp [csvCells]
  · intro s hs
    have he : escapeCSV (some s) = '"' :: (escapeQuotes s ++ ['"']) := by
      simp only [escapeCSV]
      rw [if_pos hs]
    refine ⟨he, ?_⟩
    rw [he, List.count_cons, List.count_append, escapeQuotes_count]
    simp

/-- Witness for C10 at a one-row object whose value contains a comma
and a double quote. -/
theorem export_to_csv_spec_witness :
    escapeCSV (some ['x', ',', '"']) = '"' :: (escapeQuotes ['x', ',', '"'] ++ ['"']) :=
  ((export_to_csv_spec [[(['a'], some ['x', ',', '"'])]] (by decide)).2.2.2.2.1
    ['x', ',', '"'] (by decide)).1

end EficheDash
